import Mathlib

/-!
Verification development for the `gis-utility` repository, centred on the
tax-parcel loading core (`tax_parcel_loader.py`, the county-name
normalization of `general_utility.py`, and the argument validation of
`analyze_tax_parcels.py`).

The Python code is shallowly embedded: record sets (geopandas dataframes)
become a structure of a column list and rows of attribute/value pairs,
Python exceptions become an `Except` error value carrying the same
information the exception carries, Python dict lookups become association
list lookups with the last binding winning, and numbers are modelled as
rationals.  File system contents (directory listing, bbox files, record
files, per-county schema maps) are a `LoaderEnv` of explicit functions.
-/

set_option maxRecDepth 20000
set_option maxHeartbeats 2000000

/-- Equality of embedded results is decidable (used to evaluate the code
on concrete inputs). -/
instance {ε α : Type} [DecidableEq ε] [DecidableEq α] :
    DecidableEq (Except ε α) := fun a b =>
  match a, b with
  | .ok x, .ok y =>
    if h : x = y then .isTrue (by rw [h]) else .isFalse (by simp [h])
  | .error x, .error y =>
    if h : x = y then .isTrue (by rw [h]) else .isFalse (by simp [h])
  | .ok _, .error _ => .isFalse (by simp)
  | .error _, .ok _ => .isFalse (by simp)

namespace GisUtil

/-! ## Character and string helpers

All string processing is done on `List Char` with structural recursion so
that concrete instances reduce inside the kernel. -/

def listStartsWith : List Char → List Char → Bool
  | _, [] => true
  | [], _ :: _ => false
  | a :: as, b :: bs => a = b && listStartsWith as bs

def listEndsWith (s pat : List Char) : Bool :=
  listStartsWith s.reverse pat.reverse

/-- Is `pat` a contiguous part of `s`?  (Used to state whether an error
message mentions a name.) -/
def listContains (pat : List Char) : List Char → Bool
  | [] => listStartsWith [] pat
  | c :: rest => listStartsWith (c :: rest) pat || listContains pat rest

def strStartsWith (s pat : String) : Bool := listStartsWith s.data pat.data

def strEndsWith (s pat : String) : Bool := listEndsWith s.data pat.data

def strContains (s pat : String) : Bool := listContains pat.data s.data

/-- `Python str.replace`: replace every non-overlapping occurrence of `pat`
by `repl`, scanning left to right.  Fuel-based structural recursion (the
fuel is the length of the scanned list) so concrete calls reduce. -/
def replaceAllAux (pat repl : List Char) : Nat → List Char → List Char
  | 0, s => s
  | _ + 1, [] => []
  | fuel + 1, c :: rest =>
    if pat ≠ [] ∧ listStartsWith (c :: rest) pat then
      repl ++ replaceAllAux pat repl fuel (List.drop pat.length (c :: rest))
    else
      c :: replaceAllAux pat repl fuel rest

def replaceAll (pat repl s : List Char) : List Char :=
  replaceAllAux pat repl s.length s

def isPySpace (c : Char) : Bool :=
  c = ' ' || c = '\t' || c = '\n' || c = '\r'

/-- Python `str.strip()` (whitespace from both ends). -/
def trimChars (s : List Char) : List Char :=
  ((s.dropWhile isPySpace).reverse.dropWhile isPySpace).reverse

/-- ASCII lower casing, `str.lower()` on the names that occur here. -/
def asciiLower (c : Char) : Char :=
  if 'A' ≤ c ∧ c ≤ 'Z' then Char.ofNat (c.toNat + 32) else c

/-- Transliteration done by the external `unidecode` library: strip the
accent of the common accented Latin letters, identity on ASCII. -/
def unidecodeChar (c : Char) : Char :=
  match c with
  | 'á' => 'a' | 'à' => 'a' | 'â' => 'a' | 'ä' => 'a' | 'ã' => 'a' | 'å' => 'a'
  | 'é' => 'e' | 'è' => 'e' | 'ê' => 'e' | 'ë' => 'e'
  | 'í' => 'i' | 'ì' => 'i' | 'î' => 'i' | 'ï' => 'i'
  | 'ó' => 'o' | 'ò' => 'o' | 'ô' => 'o' | 'ö' => 'o' | 'õ' => 'o'
  | 'ú' => 'u' | 'ù' => 'u' | 'û' => 'u' | 'ü' => 'u'
  | 'ñ' => 'n' | 'ç' => 'c'
  | 'Á' => 'A' | 'À' => 'A' | 'Â' => 'A' | 'Ä' => 'A' | 'Ã' => 'A' | 'Å' => 'A'
  | 'É' => 'E' | 'È' => 'E' | 'Ê' => 'E' | 'Ë' => 'E'
  | 'Í' => 'I' | 'Ì' => 'I' | 'Î' => 'I' | 'Ï' => 'I'
  | 'Ó' => 'O' | 'Ò' => 'O' | 'Ô' => 'O' | 'Ö' => 'O' | 'Õ' => 'O'
  | 'Ú' => 'U' | 'Ù' => 'U' | 'Û' => 'U' | 'Ü' => 'U'
  | 'Ñ' => 'N' | 'Ç' => 'C'
  | other => other

/-- `COMMON_ABBREVIATIONS` from `general_utility.py`, in source order. -/
def COMMON_ABBREVIATIONS : List (String × String) :=
  [("fort", "ft"), ("saint", "st"), ("avenue", "ave"), ("boulevard", "blvd"),
   ("circle", "cir"), ("court", "ct"), ("drive", "dr"), ("interstate", "i"),
   ("lane", "ln"), ("parkway", "pkwy"), ("place", "pl"), ("street", "st"),
   ("road", "rd"), ("route", "rte"), ("terrace", "ter"), ("trail", "tr"),
   ("east", "e"), ("north", "n"), ("south", "s"), ("west", "w")]

/-- `general_utility.standardize_string`: unidecode, lower case, remove
spaces, hyphens and apostrophes, strip, then fold the abbreviation
replacements in order. -/
def standardize_string (s : String) : String :=
  let cleaned :=
    trimChars ((((s.data.map unidecodeChar).map asciiLower).filter
      (fun c => ¬ (c = ' ' ∨ c = '-' ∨ c = Char.ofNat 39))))
  ⟨COMMON_ABBREVIATIONS.foldl
    (fun acc p => replaceAll p.1.data p.2.data acc) cleaned⟩

/-- `general_utility.standardize_county`. -/
def standardize_county (county : String) : String :=
  let c := standardize_string county
  if strEndsWith c "county" then ⟨c.data.take (c.data.length - 6)⟩
  else if strStartsWith c "countyof" then ⟨c.data.drop 8⟩
  else c

example : standardize_county "Monroe County" = "monroe" := by decide
example : standardize_county "Monroe" = "monroe" := by decide
example : standardize_county "Ontario" = "ontario" := by decide

/-! ## Exact rational numbers

Python's numbers are embedded as exact rationals.  The implementation
below uses a fuel-based Euclid so every operation is structural recursion
and concrete programs evaluate inside the kernel; values are kept
normalized (positive reduced denominator), so structural equality is
value equality. -/

def gcdAux : Nat → Nat → Nat → Nat
  | 0, _, b => b
  | fuel + 1, a, b => if a = 0 then b else gcdAux fuel (b % a) a

def gcdN (a b : Nat) : Nat := gcdAux (a + 1) a b

/-- A normalized rational: `num / den` with `den` positive and the
fraction reduced (maintained by the smart constructor `pynorm`). -/
structure PyNum where
  num : Int
  den : Nat
deriving DecidableEq

/-- Normalize `n / d` (sign into the numerator, fraction reduced). -/
def pynorm (n d : Int) : PyNum :=
  let sgn : Int := if d < 0 then -1 else 1
  let n2 := sgn * n
  let d2 := (sgn * d).toNat
  let g := gcdN n2.natAbs d2
  if g = 0 then ⟨0, 1⟩ else ⟨n2 / (g : Int), d2 / g⟩

def PyNum.ofInt (n : Int) : PyNum := ⟨n, 1⟩

instance (n : Nat) : OfNat PyNum n := ⟨⟨(n : Int), 1⟩⟩

instance : Neg PyNum := ⟨fun a => ⟨-a.num, a.den⟩⟩

instance : Add PyNum :=
  ⟨fun a b => pynorm (a.num * b.den + b.num * a.den) ((a.den : Int) * b.den)⟩

instance : Sub PyNum :=
  ⟨fun a b => pynorm (a.num * b.den - b.num * a.den) ((a.den : Int) * b.den)⟩

instance : Mul PyNum :=
  ⟨fun a b => pynorm (a.num * b.num) ((a.den : Int) * b.den)⟩

instance : Div PyNum :=
  ⟨fun a b => pynorm (a.num * b.den) ((a.den : Int) * b.num)⟩

instance : LE PyNum := ⟨fun a b => a.num * b.den ≤ b.num * a.den⟩

instance : LT PyNum := ⟨fun a b => a.num * b.den < b.num * a.den⟩

instance (a b : PyNum) : Decidable (a ≤ b) := Int.decLe _ _

instance (a b : PyNum) : Decidable (a < b) := Int.decLt _ _

example : ((0 : PyNum) - 10 / 2) = -(5 : PyNum) := by decide
example : (3 : PyNum) + 1 / 2 ≤ 4 := by decide

/-! ## Data model

A geopandas dataframe is modelled as a column-name list plus rows of
attribute/value pairs; a missing pair behaves like a NaN cell.  Python
exceptions become `PyErr` values; `PyErr.message` is the text the caller
would see (a `KeyError` carries only the key). -/

inductive PyVal where
  | num : PyNum → PyVal
  | str : String → PyVal
deriving DecidableEq

abbrev Row := List (String × PyVal)

/-- The value of column `k` in a row; `none` plays the role of NaN. -/
def cell (r : Row) (k : String) : Option PyVal :=
  (r.find? (fun p => p.1 = k)).map (·.2)

structure GDF where
  cols : List String
  rows : List Row
deriving DecidableEq

def emptyGDF : GDF := ⟨[], []⟩

inductive PyErr where
  | valueError : String → PyErr
  | keyError : String → PyErr
  | fileNotFound : String → PyErr
  | typeError : String → PyErr
deriving DecidableEq

/-- The text carried by the exception: a Python `KeyError` prints just the
offending key, a `ValueError` its message. -/
def PyErr.message : PyErr → String
  | .valueError m => m
  | .keyError k => k
  | .fileNotFound p => p
  | .typeError m => m

/-- A `keys`/`values` JSON document mapping canonical names to
dataset-specific names (one per state, optionally overridden per county). -/
structure SchemaMap where
  keys : List (String × String)
  values : List (String × String)
deriving DecidableEq

/-- Python dict lookup over an association list built by repeated
assignment: the last binding of a key wins. -/
def dictGet (d : List (String × String)) (k : String) : Option String :=
  (d.reverse.find? (fun p => p.1 = k)).map (·.2)

/-- `d[k]` — raises `KeyError k` when absent. -/
def lk (d : List (String × String)) (k : String) : Except PyErr String :=
  match dictGet d k with
  | some v => .ok v
  | none => .error (.keyError k)

/-! ## AttributeFilter (`tax_parcel_loader.py` lines 16-88) -/

/-- The fields of `AttributeFilter` after `__init__` ran (defaults already
substituted). -/
structure AttributeFilter where
  dont_filter_to_sfh : Bool
  require_connected_water : Bool
  require_connected_sewer : Bool
  min_year_built : PyNum
  max_year_built : PyNum
  min_sqft : PyNum
  max_sqft : PyNum
  min_acres : PyNum
  max_acres : PyNum
  min_beds : PyNum
  min_baths : PyNum
  county : Option String
  school_district : Option String
  city : Option String
  municipality : Option String
  zip_code : Option String
deriving DecidableEq

/-- Python `x if x else d` on an optional number (`None` and `0` are both
falsy). -/
def numDefault (o : Option PyNum) (d : PyNum) : PyNum :=
  match o with
  | some v => if v = 0 then d else v
  | none => d

/-- `AttributeFilter.__init__`: numeric bounds default to `0`, `9999` or
`99999` by Python truthiness; strings are stored as given. -/
def mkAttributeFilter
    (already_sfh require_connected_water require_connected_sewer : Bool)
    (min_year_built max_year_built min_sqft max_sqft min_acres max_acres
      min_beds min_baths : Option PyNum)
    (county school_district city municipality zip_code : Option String) :
    AttributeFilter where
  dont_filter_to_sfh := already_sfh
  require_connected_water := require_connected_water
  require_connected_sewer := require_connected_sewer
  min_year_built := numDefault min_year_built 0
  max_year_built := numDefault max_year_built 9999
  min_sqft := numDefault min_sqft 0
  max_sqft := numDefault max_sqft 99999
  min_acres := numDefault min_acres 0
  max_acres := numDefault max_acres 99999
  min_beds := numDefault min_beds 0
  min_baths := numDefault min_baths 0
  county := county
  school_district := school_district
  city := city
  municipality := municipality
  zip_code := zip_code

/-- An `AttributeFilter` built with every argument unset (argparse gives
`False` for the `store_true` flags and `None` elsewhere). -/
def defaultAttributeFilter : AttributeFilter :=
  mkAttributeFilter false false false
    none none none none none none none none
    none none none none none

/-- The fifteen dataset-specific names `apply_filter` resolves up front
(source lines 36-50), with the source's local variable names. -/
structure FilterKeys where
  property_type_key : String
  city_key : String
  municipality_key : String
  zip_code_key : String
  year_built_key : String
  sqft_key : String
  acres_key : String
  beds_key : String
  baths_key : String
  school_district_key : String
  water_key : String
  sewer_key : String
  single_family_home_value : String
  connected_water_value : String
  connected_sewer_value : String
deriving DecidableEq

/-- Lines 36-50 of `tax_parcel_loader.py`: all fifteen lookups happen
before any filtering stage, in source order. -/
def resolveFilterKeys (m : SchemaMap) : Except PyErr FilterKeys := do
  let property_type_key ← lk m.keys "property_type"
  let city_key ← lk m.keys "city"
  let municipality_key ← lk m.keys "municipality"
  let zip_code_key ← lk m.keys "zip_code"
  let year_built_key ← lk m.keys "year_built"
  let sqft_key ← lk m.keys "sqft"
  let acres_key ← lk m.keys "acres"
  let beds_key ← lk m.keys "bedrooms"
  let baths_key ← lk m.keys "bathrooms"
  let school_district_key ← lk m.keys "school_district"
  let water_key ← lk m.keys "water_type"
  let sewer_key ← lk m.keys "sewer_type"
  let single_family_home_value ← lk m.values "single_family_home"
  let connected_water_value ← lk m.values "connected_water"
  let connected_sewer_value ← lk m.values "connected_sewer"
  pure ⟨property_type_key, city_key, municipality_key, zip_code_key,
    year_built_key, sqft_key, acres_key, beds_key, baths_key,
    school_district_key, water_key, sewer_key, single_family_home_value,
    connected_water_value, connected_sewer_value⟩

def cellGEnum (v : Option PyVal) (b : PyNum) : Bool :=
  match v with
  | some (.num q) => b ≤ q
  | _ => false

def cellLEnum (v : Option PyVal) (b : PyNum) : Bool :=
  match v with
  | some (.num q) => q ≤ b
  | _ => false

def cellEqStr (v : Option PyVal) (s : String) : Bool :=
  v = some (.str s)

/-- `gdf[mask-on-column-k]`: pandas raises `KeyError k` when `k` is not a
column; otherwise keeps the rows satisfying the predicate. -/
def maskFilter (g : GDF) (k : String) (p : Option PyVal → Bool) :
    Except PyErr GDF :=
  if k ∈ g.cols then .ok ⟨g.cols, g.rows.filter (fun r => p (cell r k))⟩
  else .error (.keyError k)

/-- The optional exact-match string stages (`if self.city: ...` etc.);
`None` and the empty string are falsy. -/
def strFilter (g : GDF) (k : String) (o : Option String) :
    Except PyErr GDF :=
  match o with
  | some s => if s ≠ "" then maskFilter g k (fun v => cellEqStr v s) else pure g
  | none => pure g

/-- `AttributeFilter.apply_filter` (lines 35-88): resolve all fifteen
names, then run the stages in source order, each skipped when its field is
falsy. -/
def apply_filter (f : AttributeFilter) (gdf : GDF) (m : SchemaMap) :
    Except PyErr GDF := do
  let ks ← resolveFilterKeys m
  let gdf ←
    if ¬ f.dont_filter_to_sfh then
      maskFilter gdf ks.property_type_key
        (fun v => cellEqStr v ks.single_family_home_value)
    else pure gdf
  let gdf ←
    if f.min_year_built ≠ 0 ∨ f.max_year_built ≠ 0 then
      maskFilter gdf ks.year_built_key
        (fun v => cellGEnum v f.min_year_built && cellLEnum v f.max_year_built)
    else pure gdf
  let gdf ←
    if f.min_sqft ≠ 0 ∨ f.max_sqft ≠ 0 then
      maskFilter gdf ks.sqft_key
        (fun v => cellGEnum v f.min_sqft && cellLEnum v f.max_sqft)
    else pure gdf
  let gdf ←
    if f.min_acres ≠ 0 ∨ f.max_acres ≠ 0 then
      maskFilter gdf ks.acres_key
        (fun v => cellGEnum v f.min_acres && cellLEnum v f.max_acres)
    else pure gdf
  let gdf ←
    if f.min_beds ≠ 0 then
      maskFilter gdf ks.beds_key (fun v => cellGEnum v f.min_beds)
    else pure gdf
  let gdf ←
    if f.min_baths ≠ 0 then
      maskFilter gdf ks.baths_key (fun v => cellGEnum v f.min_baths)
    else pure gdf
  let gdf ←
    if f.require_connected_water then
      maskFilter gdf ks.water_key
        (fun v => cellEqStr v ks.connected_water_value)
    else pure gdf
  let gdf ←
    if f.require_connected_sewer then
      maskFilter gdf ks.sewer_key
        (fun v => cellEqStr v ks.connected_sewer_value)
    else pure gdf
  let gdf ← strFilter gdf ks.city_key f.city
  let gdf ← strFilter gdf ks.municipality_key f.municipality
  let gdf ← strFilter gdf ks.zip_code_key f.zip_code
  let gdf ← strFilter gdf ks.school_district_key f.school_district
  pure gdf

/-! ## Geometry and the loader environment -/

/-- An axis-aligned box in the planar CRS.  The requested region is built
as such a box, and a county's bbox file stores one box polygon (spec
interface list). -/
structure Rect where
  xmin : PyNum
  xmax : PyNum
  ymin : PyNum
  ymax : PyNum
deriving DecidableEq

/-- Closed-boundary intersection of two boxes (shapely `intersects`
includes touching boundaries). -/
def rectIntersects (a b : Rect) : Bool :=
  a.xmin ≤ b.xmax && b.xmin ≤ a.xmax && a.ymin ≤ b.ymax && b.ymin ≤ a.ymax

/-- The file system and collaborator state a `load_parcels` call reads.

The field `latlonToCrs` stands for `general_utility.latlon_to_crs`, which
`tax_parcel_loader.py` imports but which is absent from the sources.
Modelled from the spec: §4.1 says it converts a (lat, lon) pair to planar
(x, y) in a fixed target CRS; it is kept as an arbitrary but fixed
conversion function, since no claim depends on its values.

`parcels entry` is the content of the county's records file as a function
of the requested box, because `geopandas.read_file(..., bbox=...)` yields
only the records intersecting that box; `none` means the file is absent.
`localSchema entry` is the parsed per-county `keys_and_values` file when
present, and `statewideSchema` the parsed statewide one. -/
structure LoaderEnv where
  stateDir : String
  keysAndValuesFilename : String
  listing : List String
  isDir : String → Bool
  bboxFile : String → Option Rect
  parcels : String → Option (Rect → GDF)
  localSchema : String → Option SchemaMap
  statewideSchema : SchemaMap
  latlonToCrs : PyNum → PyNum → PyNum × PyNum

/-- `entry[:-len("County")]`. -/
def dropCountySuffix (s : String) : String :=
  ⟨s.data.take (s.data.length - 6)⟩

def bboxPath (env : LoaderEnv) (entry : String) : String :=
  env.stateDir ++ "/" ++ entry ++ "/" ++ entry ++ "Bbox.geojson"

def parcelsPath (env : LoaderEnv) (entry : String) : String :=
  env.stateDir ++ "/" ++ entry ++ "/" ++ dropCountySuffix entry
    ++ "TaxParcelCentroids.geojson"

/-- Lines 138-144: use the county-local `keys_and_values` file if it
exists, else the statewide one. -/
def resolveSchema (env : LoaderEnv) (entry : String) : SchemaMap :=
  match env.localSchema entry with
  | some m => m
  | none => env.statewideSchema

/-- Line 120: skip the entry when a county restriction is set (truthy) and
the normalized names differ. -/
def skipByCounty (fc : Option String) (entry : String) : Bool :=
  match fc with
  | none => false
  | some c =>
    if c = "" then false
    else standardize_county c ≠ standardize_county (dropCountySuffix entry)

/-- `gdf.rename(columns=...)` where the dict is given as a lookup
function: a column (or row key) found in the dict is replaced, others are
kept. -/
def renameCols (d : String → Option String) (g : GDF) : GDF :=
  ⟨g.cols.map (fun c => (d c).getD c),
   g.rows.map (fun r => r.map (fun p => ((d p.1).getD p.1, p.2)))⟩

/-- The dict `{value: key for key, value in keys.items()}` (line 149):
value-to-key, later items overriding earlier ones. -/
def reverseKeysDict (ks : List (String × String)) (v : String) :
    Option String :=
  ((ks.map (fun p => (p.2, p.1))).reverse.find? (fun p => p.1 = v)).map (·.2)

/-- The `keys` dict itself, as a lookup (used for the round-trip rename of
the spec's testable property). -/
def forwardKeysDict (ks : List (String × String)) (k : String) :
    Option String :=
  (ks.reverse.find? (fun p => p.1 = k)).map (·.2)

/-- `list(d.keys())` for a dict built from the association list: first
occurrence order, duplicates collapsed. -/
def dedupFirstAux (seen : List String) : List String → List String
  | [] => []
  | k :: rest =>
    if seen.contains k then dedupFirstAux seen rest
    else k :: dedupFirstAux (k :: seen) rest

/-- `gdf[desired_keys]` (line 151): selecting columns; pandas raises a
`KeyError` when a requested column is absent. -/
def selectCols (ks : List String) (g : GDF) : Except PyErr GDF :=
  match ks.find? (fun k => ¬ g.cols.contains k) with
  | some k => .error (.keyError k)
  | none =>
    .ok ⟨ks, g.rows.map (fun r =>
      ks.filterMap (fun k => (cell r k).map (fun v => (k, v))))⟩

def pyFloor (x : PyNum) : Int := Int.fdiv x.num (x.den : Int)

/-- Pandas `round` rounds half to even. -/
def roundHalfEven (x : PyNum) : Int :=
  let n : Int := pyFloor x
  let frac : PyNum := x - PyNum.ofInt n
  if frac < (⟨1, 2⟩ : PyNum) then n
  else if (⟨1, 2⟩ : PyNum) < frac then n + 1
  else if n % 2 = 0 then n else n + 1

def round2 (x : PyNum) : PyNum :=
  PyNum.ofInt (roundHalfEven (x * 100)) / 100

/-- `gdf.round(2)` (line 152): numeric cells rounded, shape unchanged. -/
def roundGDF (g : GDF) : GDF :=
  ⟨g.cols,
   g.rows.map (List.map (fun p =>
     (p.1, match p.2 with
           | .num q => PyVal.num (round2 q)
           | v => v)))⟩

/-- `pd.concat([a, b])`: rows appended, columns the ordered union. -/
def concatGDF (a b : GDF) : GDF :=
  ⟨a.cols ++ b.cols.filter (fun c => ¬ a.cols.contains c),
   a.rows ++ b.rows⟩

/-- `gdf.to_crs(...)` reprojects geometries only; the tabular shape it
returns is unchanged, which is all the claims observe. -/
def toCrs (g : GDF) : GDF := g

/-- The requested bbox of lines 98-106: the converted center plus and
minus half the width and height. -/
def queryRect (env : LoaderEnv) (center : PyNum × PyNum) (w h : PyNum) : Rect :=
  let p := env.latlonToCrs center.1 center.2
  ⟨p.1 - w/2, p.1 + w/2, p.2 - h/2, p.2 + h/2⟩

/-- One iteration of the county loop (lines 117-157) over an accumulated
`combined` dataframe. -/
def processEntry (env : LoaderEnv) (filt : AttributeFilter) (qbox : Rect)
    (combined : GDF) (entry : String) : Except PyErr GDF :=
  if strEndsWith entry "County" && env.isDir entry then
    if skipByCounty filt.county entry then .ok combined
    else
      match env.bboxFile entry with
      | none => .error (.valueError (bboxPath env entry ++ " does not exist."))
      | some county_bbox =>
        if ¬ rectIntersects county_bbox qbox then .ok combined
        else
          match env.parcels entry with
          | none =>
            .error (.valueError (parcelsPath env entry ++ " does not exist."))
          | some readFn => do
            let m := resolveSchema env entry
            let gdf ← apply_filter filt (readFn qbox) m
            let gdf := renameCols (reverseKeysDict m.keys) gdf
            let desired := dedupFirstAux [] (m.keys.map (·.1)) ++ ["geometry"]
            let gdf ← selectCols desired gdf
            let gdf := roundGDF gdf
            pure (if gdf.rows.length ≠ 0 then concatGDF combined gdf
                  else combined)
  else .ok combined

/-- `TaxParcelLoader.load_parcels` (lines 96-158): build the requested
box, start from an empty dataframe, fold the county loop over the
directory listing, reproject and return. -/
def load_parcels (env : LoaderEnv) (center_latlon : PyNum × PyNum)
    (width_meters height_meters : PyNum) (filt : AttributeFilter) :
    Except PyErr GDF := do
  let combined ← env.listing.foldlM
    (fun acc e => processEntry env filt
      (queryRect env center_latlon width_meters height_meters) acc e)
    emptyGDF
  pure (toCrs combined)

/-! ## The command-line entry point (`analyze_tax_parcels.py`)

`main` reads the two schema JSON files (lines 73-79), verifies the
arguments (lines 91-130), converts the center, computes width and height
(lines 137-155) and loads the data (lines 157-172); everything after the
load (plotting, the duplicated inline filtering, saving) consumes the
loaded record set and is outside the claims, so `mainLoad` returns the
loaded record set. -/

inductive AttributeType where
  | Quantitative
  | Qualitative
deriving DecidableEq

/-- The argparse results that take part in lines 73-172.  Numeric
arguments arrive as strings in Python; they are modelled as already
parsed, with `none` for an absent argument (an absent argument is the
falsy case of every `if args.x` test here). -/
structure MainArgs where
  input_filepath : Option String
  county_parent_dir : Option String
  parcel_keys_and_values_filepath : String
  parcel_keys_types_filepath : String
  plot_key : Option String
  plot_all_filepath : Option String
  plot_filtered_filepath : Option String
  folium_filepath : Option String
  center_latlon : Option (PyNum × PyNum)
  radius_meters : Option PyNum
  width_meters : Option PyNum
  height_meters : Option PyNum
  colormap : Option String
  markersize : Option Int
  figsize : Option Int

/-- External state `main` reads: the two JSON files (`none` when the file
is missing and `open` raises), matplotlib's colormap inventory, the
single-file dataset, and the loader's file system. -/
structure MainEnv where
  keysFileContent : Option SchemaMap
  typesFileContent : Option (List (String × String))
  colormapList : List String
  inputFile : String → Option (Option Rect → GDF)
  loaderEnv : LoaderEnv

/-- Lines 146-172 of `main`: width/height computation and the data load.

The county-parent-directory branch is embedded as the `TypeError` Python
raises there: line 170 calls `TaxParcelLoader(args.county_parent_dir)`
although `TaxParcelLoader.__init__` requires a second argument, so that
branch cannot construct the loader as written. -/
def mainLoadData (args : MainArgs) (env : MainEnv) : Except PyErr GDF :=
  let wh : PyNum × PyNum :=
    match args.center_latlon with
    | some _ =>
      match args.radius_meters with
      | some r => (2 * r, 2 * r)
      | none =>
        match args.height_meters with
        | some hm => (args.width_meters.getD 0, hm)
        | none => (args.width_meters.getD 0, args.width_meters.getD 0)
    | none => (0, 0)
  match args.input_filepath with
  | some path =>
    match env.inputFile path with
    | none => .error (.fileNotFound path)
    | some readFn =>
      match args.center_latlon with
      | some c =>
        let p := env.loaderEnv.latlonToCrs c.1 c.2
        .ok (readFn (some ⟨p.1 - wh.1/2, p.1 + wh.1/2,
                           p.2 - wh.2/2, p.2 + wh.2/2⟩))
      | none => .ok (readFn none)
  | none =>
    .error (.typeError "TaxParcelLoader.__init__ missing 1 required positional argument: keys_and_values_filename")

/-- Lines 124-130 of `main`: the figure-size check, then the load. -/
def mainFigsizeStep (args : MainArgs) (env : MainEnv) : Except PyErr GDF :=
  match args.figsize with
  | some n =>
    if n ≤ 0 then .error (.valueError "Figure size must be positive.")
    else mainLoadData args env
  | none => mainLoadData args env

/-- Lines 116-122 of `main`: the marker-size check, then the rest. -/
def mainMarkersizeStep (args : MainArgs) (env : MainEnv) : Except PyErr GDF :=
  match args.markersize with
  | some n =>
    if n ≤ 0 then .error (.valueError "Markersize must be positive.")
    else mainFigsizeStep args env
  | none => mainFigsizeStep args env

/-- `analyze_tax_parcels.main` from the file reads (line 73) through the
load (line 172), returning the loaded record set. -/
def mainLoad (args : MainArgs) (env : MainEnv) : Except PyErr GDF :=
  match env.keysFileContent with
  | none => .error (.fileNotFound args.parcel_keys_and_values_filepath)
  | some _general_name_to_specific_name =>
  match env.typesFileContent with
  | none => .error (.fileNotFound args.parcel_keys_types_filepath)
  | some general_name_to_type0 =>
  let general_name_to_type : List (String × AttributeType) :=
    general_name_to_type0.map (fun p =>
      (p.1, if p.2 = "int" ∨ p.2 = "float" then AttributeType.Quantitative
            else AttributeType.Qualitative))
  if args.plot_key.isSome ∧ (args.plot_all_filepath.isNone ∧
      args.plot_filtered_filepath.isNone ∧ args.folium_filepath.isNone) then
    .error (.valueError "plot-key is present but no plots are being saved.")
  else if args.center_latlon.isSome ∧ (args.radius_meters.isNone ∧
      args.width_meters.isNone) then
    .error (.valueError "Must specify a radius or a width when center is specified.")
  else if args.radius_meters.isSome ∧ (args.width_meters.isSome ∨
      args.height_meters.isSome) then
    .error (.valueError "Cannot specify both a circular and a rectangular region.")
  else if args.center_latlon.isNone ∧ (args.radius_meters.isSome ∨
      args.width_meters.isSome ∨ args.height_meters.isSome) then
    .error (.valueError "Must specify a center lat/lon to restrict to a circle or rectangle.")
  else if args.county_parent_dir.isSome ∧ (args.center_latlon.isNone ∨
      (args.radius_meters.isNone ∧ args.width_meters.isNone)) then
    .error (.valueError "Must specify a center lat/lon and a radius or width when loading from the county parent directory.")
  else if args.colormap.isSome ∧ (args.plot_all_filepath.isNone ∧
      args.plot_filtered_filepath.isNone ∧ args.folium_filepath.isNone) then
    .error (.valueError "Colormap is present but no plots are being saved.")
  else
  let plotTypeStep : Except PyErr (Option AttributeType) :=
    match args.plot_key with
    | some pk =>
      match (general_name_to_type.reverse.find? (fun p => p.1 = pk)).map (·.2)
      with
      | some t => .ok (some t)
      | none => .error (.keyError pk)
    | none => .ok none
  match plotTypeStep with
  | .error e => .error e
  | .ok _ =>
  match args.colormap with
  | some cm =>
    if ¬ env.colormapList.contains cm then
      .error (.valueError ("The specified colormap (" ++ cm
        ++ ") is not in the list of options: "))
    else mainMarkersizeStep args env
  | none => mainMarkersizeStep args env

/-! ## Spec-side definitions (for comparison with the code) -/

/-- Modelled from the spec: the canonical attribute set of §3 — the fixed
column vocabulary the spec says every result carries. -/
def canonicalColumns : List String :=
  ["property_type", "year_built", "sqft", "acres", "bedrooms", "bathrooms",
   "school_district", "water_type", "sewer_type", "city", "municipality",
   "zip_code", "county"]

/-- Modelled from the spec: the `prune` operation exactly as claim C3 and
§4.3 word it — with a county name, restrict to the single matching
partition and skip the bbox test when exactly one matches, else yield the
empty set. -/
def claimedPrune (env : LoaderEnv) (qbox : Rect) (county : Option String) :
    List String :=
  let candidates := env.listing.filter
    (fun e => strEndsWith e "County" && env.isDir e)
  match county with
  | some c =>
    let ms := candidates.filter (fun e =>
      standardize_county c = standardize_county (dropCountySuffix e))
    if ms.length = 1 then ms else []
  | none =>
    candidates.filter (fun e =>
      match env.bboxFile e with
      | some cb => rectIntersects cb qbox
      | none => false)

/-! ## Helper lemmas -/

theorem foldlM_except_append {α β ε : Type} (f : β → α → Except ε β)
    (l₁ l₂ : List α) (b : β) :
    (l₁ ++ l₂).foldlM f b =
      match l₁.foldlM f b with
      | .error e => .error e
      | .ok g => l₂.foldlM f g := by
  induction l₁ generalizing b with
  | nil => simp [pure, Except.pure]
  | cons a l ih =>
    simp only [List.cons_append, List.foldlM_cons]
    cases h : f b a with
    | error e => simp [h, Bind.bind, Except.bind]
    | ok g => simp [h, Bind.bind, Except.bind, ih]

theorem foldlM_except_error_head {α β ε : Type} (f : β → α → Except ε β)
    (a : α) (l : List α) (b : β) (e : ε) (h : f b a = .error e) :
    (a :: l).foldlM f b = .error e := by
  simp [List.foldlM_cons, h, Bind.bind, Except.bind]

/-- An entry the county loop passes over without contributing: not a
county directory, skipped by the county restriction, or pruned by the
bbox intersection test. -/
def prunedOut (env : LoaderEnv) (filt : AttributeFilter) (qbox : Rect)
    (e : String) : Prop :=
  ¬ (strEndsWith e "County" = true ∧ env.isDir e = true)
  ∨ skipByCounty filt.county e = true
  ∨ ∃ cb, env.bboxFile e = some cb ∧ rectIntersects cb qbox = false

theorem processEntry_prunedOut {env : LoaderEnv} {filt : AttributeFilter}
    {qbox : Rect} {e : String} (h : prunedOut env filt qbox e) (acc : GDF) :
    processEntry env filt qbox acc e = .ok acc := by
  unfold processEntry
  rcases h with h | h | ⟨cb, hcb, hint⟩
  · have hb : (strEndsWith e "County" && env.isDir e) = false := by
      cases hse : strEndsWith e "County" <;> cases hd : env.isDir e <;>
        simp_all
    simp [hb]
  · by_cases hb : (strEndsWith e "County" && env.isDir e) = true
    · simp [hb, h]
    · rw [Bool.not_eq_true] at hb
      simp [hb]
  · by_cases hb : (strEndsWith e "County" && env.isDir e) = true
    · by_cases hs : skipByCounty filt.county e = true
      · simp [hb, hs]
      · rw [Bool.not_eq_true] at hs
        simp [hb, hs, hcb, hint]
    · rw [Bool.not_eq_true] at hb
      simp [hb]

theorem loadLoop_prunedOut {env : LoaderEnv} {filt : AttributeFilter}
    {qbox : Rect} {l : List String}
    (h : ∀ e ∈ l, prunedOut env filt qbox e) (acc : GDF) :
    l.foldlM (fun acc e => processEntry env filt qbox acc e) acc =
      .ok acc := by
  induction l generalizing acc with
  | nil => simp [pure, Except.pure]
  | cons a l ih =>
    rw [List.foldlM_cons, processEntry_prunedOut (h a (by simp)) acc]
    have := ih (fun e he => h e (by simp [he]))
    simpa [Bind.bind, Except.bind] using this acc

/-! ## Claim C7 — per-partition schema resolution -/

/-- Claim C7: for every partition, schema-map resolution returns the
partition-local map when its file is present (the local map wholesale, no
per-key merging) and the statewide default otherwise, and the resolution
for one partition depends only on that partition's own file and the
default — never on any other partition. -/
theorem c7_resolveSchema_local_or_default (env : LoaderEnv)
    (entry : String) :
    (∀ m, env.localSchema entry = some m → resolveSchema env entry = m) ∧
    (env.localSchema entry = none →
      resolveSchema env entry = env.statewideSchema) ∧
    (∀ env' : LoaderEnv, env'.localSchema entry = env.localSchema entry →
      env'.statewideSchema = env.statewideSchema →
      resolveSchema env' entry = resolveSchema env entry) := by
  refine ⟨fun m hm => ?_, fun hn => ?_, fun env' hl hs => ?_⟩
  · simp [resolveSchema, hm]
  · simp [resolveSchema, hn]
  · simp [resolveSchema, hl, hs]

/-- A small concrete schema map with every required entry present. -/
def mFull : SchemaMap where
  keys :=
    [("property_type", "PT"), ("city", "CITY"), ("municipality", "MUNI"),
     ("zip_code", "ZIP"), ("year_built", "YB"), ("sqft", "SQ"),
     ("acres", "AC"), ("bedrooms", "BD"), ("bathrooms", "BA"),
     ("school_district", "SD"), ("water_type", "WT"), ("sewer_type", "SW")]
  values :=
    [("single_family_home", "210"), ("connected_water", "comm"),
     ("connected_sewer", "comm")]

/-- A second concrete schema map (a county-local override). -/
def mLocal : SchemaMap where
  keys :=
    [("property_type", "Kind"), ("city", "City"), ("municipality", "Town"),
     ("zip_code", "Zip"), ("year_built", "Built"), ("sqft", "Area"),
     ("acres", "Lot"), ("bedrooms", "Beds"), ("bathrooms", "Baths"),
     ("school_district", "District"), ("water_type", "Water"),
     ("sewer_type", "Sewer")]
  values :=
    [("single_family_home", "SFH"), ("connected_water", "public"),
     ("connected_sewer", "public")]

def envC7 : LoaderEnv where
  stateDir := "state"
  keysAndValuesFilename := "keys.json"
  listing := ["AdaCounty", "BooneCounty"]
  isDir := fun _ => true
  bboxFile := fun _ => some ⟨0, 10, 0, 10⟩
  parcels := fun _ => none
  localSchema := fun e => if e = "AdaCounty" then some mLocal else none
  statewideSchema := mFull
  latlonToCrs := fun a b => (b, a)

theorem c7_witness :
    resolveSchema envC7 "AdaCounty" = mLocal ∧
    resolveSchema envC7 "BooneCounty" = envC7.statewideSchema :=
  ⟨(c7_resolveSchema_local_or_default envC7 "AdaCounty").1 mLocal rfl,
   (c7_resolveSchema_local_or_default envC7 "BooneCounty").2.1 rfl⟩

/-! ## Claim C8 — rename round trip -/

/-- Claim C8: when a schema map's `keys` is a bijection between the
canonical names and the partition's column names, renaming a record set's
columns from dataset-specific to canonical names (the `rename` of line
149) and then renaming back with the same map recovers the original
column shape. -/
theorem c8_rename_roundtrip (ks : List (String × String)) (g : GDF)
    (hfst : (ks.map Prod.fst).Nodup) (_hsnd : (ks.map Prod.snd).Nodup)
    (hcols : ∀ c ∈ g.cols, c ∈ ks.map Prod.snd) :
    (renameCols (forwardKeysDict ks)
      (renameCols (reverseKeysDict ks) g)).cols = g.cols := by
  have key : ∀ c ∈ g.cols,
      (forwardKeysDict ks ((reverseKeysDict ks c).getD c)).getD
        ((reverseKeysDict ks c).getD c) = c := by
    intro c hc
    have hmem := hcols c hc
    -- the reverse lookup finds the unique pair whose second part is `c`
    have hsome : ((ks.map (fun p => (p.2, p.1))).reverse.find?
        (fun p => p.1 = c)).isSome := by
      rw [List.find?_isSome]
      rcases List.mem_map.mp hmem with ⟨p, hp, hpc⟩
      exact ⟨(p.2, p.1), by
        simp only [List.mem_reverse, List.mem_map]
        exact ⟨p, hp, rfl⟩, by simp [hpc]⟩
    rcases Option.isSome_iff_exists.mp hsome with ⟨q, hq⟩
    have hq1 : q.1 = c := by
      have := List.find?_some hq
      simpa using this
    have hqmem : (q.2, q.1) ∈ ks := by
      have := List.mem_of_find?_eq_some hq
      rw [List.mem_reverse] at this
      rcases List.mem_map.mp this with ⟨p, hp, hpq⟩
      have h2 : p.2 = q.1 := by rw [← hpq]
      have h1 : p.1 = q.2 := by rw [← hpq]
      rw [← h2, ← h1]
      simpa using hp
    -- the forward lookup on `q.2` finds the same pair back
    have hrev : reverseKeysDict ks c = some q.2 := by
      simp [reverseKeysDict, hq]
    have hsome2 : (ks.reverse.find? (fun p => p.1 = q.2)).isSome := by
      rw [List.find?_isSome]
      exact ⟨(q.2, q.1), by simpa using hqmem, by simp⟩
    rcases Option.isSome_iff_exists.mp hsome2 with ⟨r, hr⟩
    have hr1 : r.1 = q.2 := by
      have := List.find?_some hr
      simpa using this
    have hrmem : r ∈ ks := by
      have := List.mem_of_find?_eq_some hr
      simpa using this
    have hrq : r = (q.2, q.1) := by
      apply List.inj_on_of_nodup_map hfst hrmem hqmem
      simp [hr1]
    have hfwd : forwardKeysDict ks q.2 = some r.2 := by
      simp [forwardKeysDict, hr]
    rw [hrev]
    simp only [Option.getD_some]
    rw [hfwd]
    simp [hrq, hq1]
  simp only [renameCols, List.map_map]
  calc (g.cols.map fun c =>
          (forwardKeysDict ks ((reverseKeysDict ks c).getD c)).getD
            ((reverseKeysDict ks c).getD c))
      = g.cols.map id := List.map_congr_left key
    _ = g.cols := List.map_id g.cols

def gdfC8 : GDF where
  cols := ["PT", "YB", "geometry"]
  rows := [[("PT", .str "210"), ("YB", .num 1990),
            ("geometry", .str "POINT")]]

theorem c8_witness :
    (renameCols (forwardKeysDict [("property_type", "PT"),
        ("year_built", "YB"), ("geometry", "geometry")])
      (renameCols (reverseKeysDict [("property_type", "PT"),
        ("year_built", "YB"), ("geometry", "geometry")]) gdfC8)).cols =
      gdfC8.cols :=
  c8_rename_roundtrip _ gdfC8 (by decide) (by decide) (by decide)

/-! ## The fifteen up-front lookups of apply_filter -/

theorem lk_none {d : List (String × String)} {k : String}
    (h : dictGet d k = none) : lk d k = .error (.keyError k) := by
  simp [lk, h]

theorem lk_some {d : List (String × String)} {k v : String}
    (h : dictGet d k = some v) : lk d k = .ok v := by
  simp [lk, h]

theorem except_ok_bind {α β ε : Type} (a : α) (f : α → Except ε β) :
    (Except.ok a : Except ε α) >>= f = f a := rfl

theorem except_error_bind {α β ε : Type} (e : ε) (f : α → Except ε β) :
    (Except.error e : Except ε α) >>= f = .error e := rfl

/-- The first of the fifteen canonical entries of lines 36-50 whose lookup
fails, in source lookup order, if any. -/
def firstMissingFilterEntry (m : SchemaMap) : Option String :=
  if (dictGet m.keys "property_type").isNone then some "property_type"
  else if (dictGet m.keys "city").isNone then some "city"
  else if (dictGet m.keys "municipality").isNone then some "municipality"
  else if (dictGet m.keys "zip_code").isNone then some "zip_code"
  else if (dictGet m.keys "year_built").isNone then some "year_built"
  else if (dictGet m.keys "sqft").isNone then some "sqft"
  else if (dictGet m.keys "acres").isNone then some "acres"
  else if (dictGet m.keys "bedrooms").isNone then some "bedrooms"
  else if (dictGet m.keys "bathrooms").isNone then some "bathrooms"
  else if (dictGet m.keys "school_district").isNone then some "school_district"
  else if (dictGet m.keys "water_type").isNone then some "water_type"
  else if (dictGet m.keys "sewer_type").isNone then some "sewer_type"
  else if (dictGet m.values "single_family_home").isNone then some "single_family_home"
  else if (dictGet m.values "connected_water").isNone then some "connected_water"
  else if (dictGet m.values "connected_sewer").isNone then some "connected_sewer"
  else none

theorem resolveFilterKeys_error_of_firstMissing (m : SchemaMap)
    (k : String) (h : firstMissingFilterEntry m = some k) :
    resolveFilterKeys m = .error (.keyError k) := by
  unfold firstMissingFilterEntry at h
  unfold resolveFilterKeys
  cases h1 : dictGet m.keys "property_type" with
  | none =>
    rw [h1] at h
    simp only [Option.isNone_none, if_true, Option.some_inj] at h
    subst h
    rw [lk_none h1]
    rfl
  | some v1 =>
    rw [h1] at h
    simp only [Option.isNone_some, Bool.false_eq_true, if_false] at h
    rw [lk_some h1, except_ok_bind]
    cases h2 : dictGet m.keys "city" with
    | none =>
      rw [h2] at h
      simp only [Option.isNone_none, if_true, Option.some_inj] at h
      subst h
      rw [lk_none h2]
      rfl
    | some v2 =>
      rw [h2] at h
      simp only [Option.isNone_some, Bool.false_eq_true, if_false] at h
      rw [lk_some h2, except_ok_bind]
      cases h3 : dictGet m.keys "municipality" with
      | none =>
        rw [h3] at h
        simp only [Option.isNone_none, if_true, Option.some_inj] at h
        subst h
        rw [lk_none h3]
        rfl
      | some v3 =>
        rw [h3] at h
        simp only [Option.isNone_some, Bool.false_eq_true, if_false] at h
        rw [lk_some h3, except_ok_bind]
        cases h4 : dictGet m.keys "zip_code" with
        | none =>
          rw [h4] at h
          simp only [Option.isNone_none, if_true, Option.some_inj] at h
          subst h
          rw [lk_none h4]
          rfl
        | some v4 =>
          rw [h4] at h
          simp only [Option.isNone_some, Bool.false_eq_true, if_false] at h
          rw [lk_some h4, except_ok_bind]
          cases h5 : dictGet m.keys "year_built" with
          | none =>
            rw [h5] at h
            simp only [Option.isNone_none, if_true, Option.some_inj] at h
            subst h
            rw [lk_none h5]
            rfl
          | some v5 =>
            rw [h5] at h
            simp only [Option.isNone_some, Bool.false_eq_true, if_false] at h
            rw [lk_some h5, except_ok_bind]
            cases h6 : dictGet m.keys "sqft" with
            | none =>
              rw [h6] at h
              simp only [Option.isNone_none, if_true, Option.some_inj] at h
              subst h
              rw [lk_none h6]
              rfl
            | some v6 =>
              rw [h6] at h
              simp only [Option.isNone_some, Bool.false_eq_true, if_false] at h
              rw [lk_some h6, except_ok_bind]
              cases h7 : dictGet m.keys "acres" with
              | none =>
                rw [h7] at h
                simp only [Option.isNone_none, if_true, Option.some_inj] at h
                subst h
                rw [lk_none h7]
                rfl
              | some v7 =>
                rw [h7] at h
                simp only [Option.isNone_some, Bool.false_eq_true, if_false] at h
                rw [lk_some h7, except_ok_bind]
                cases h8 : dictGet m.keys "bedrooms" with
                | none =>
                  rw [h8] at h
                  simp only [Option.isNone_none, if_true, Option.some_inj] at h
                  subst h
                  rw [lk_none h8]
                  rfl
                | some v8 =>
                  rw [h8] at h
                  simp only [Option.isNone_some, Bool.false_eq_true, if_false] at h
                  rw [lk_some h8, except_ok_bind]
                  cases h9 : dictGet m.keys "bathrooms" with
                  | none =>
                    rw [h9] at h
                    simp only [Option.isNone_none, if_true, Option.some_inj] at h
                    subst h
                    rw [lk_none h9]
                    rfl
                  | some v9 =>
                    rw [h9] at h
                    simp only [Option.isNone_some, Bool.false_eq_true, if_false] at h
                    rw [lk_some h9, except_ok_bind]
                    cases h10 : dictGet m.keys "school_district" with
                    | none =>
                      rw [h10] at h
                      simp only [Option.isNone_none, if_true, Option.some_inj] at h
                      subst h
                      rw [lk_none h10]
                      rfl
                    | some v10 =>
                      rw [h10] at h
                      simp only [Option.isNone_some, Bool.false_eq_true, if_false] at h
                      rw [lk_some h10, except_ok_bind]
                      cases h11 : dictGet m.keys "water_type" with
                      | none =>
                        rw [h11] at h
                        simp only [Option.isNone_none, if_true, Option.some_inj] at h
                        subst h
                        rw [lk_none h11]
                        rfl
                      | some v11 =>
                        rw [h11] at h
                        simp only [Option.isNone_some, Bool.false_eq_true, if_false] at h
                        rw [lk_some h11, except_ok_bind]
                        cases h12 : dictGet m.keys "sewer_type" with
                        | none =>
                          rw [h12] at h
                          simp only [Option.isNone_none, if_true, Option.some_inj] at h
                          subst h
                          rw [lk_none h12]
                          rfl
                        | some v12 =>
                          rw [h12] at h
                          simp only [Option.isNone_some, Bool.false_eq_true, if_false] at h
                          rw [lk_some h12, except_ok_bind]
                          cases h13 : dictGet m.values "single_family_home" with
                          | none =>
                            rw [h13] at h
                            simp only [Option.isNone_none, if_true, Option.some_inj] at h
                            subst h
                            rw [lk_none h13]
                            rfl
                          | some v13 =>
                            rw [h13] at h
                            simp only [Option.isNone_some, Bool.false_eq_true, if_false] at h
                            rw [lk_some h13, except_ok_bind]
                            cases h14 : dictGet m.values "connected_water" with
                            | none =>
                              rw [h14] at h
                              simp only [Option.isNone_none, if_true, Option.some_inj] at h
                              subst h
                              rw [lk_none h14]
                              rfl
                            | some v14 =>
                              rw [h14] at h
                              simp only [Option.isNone_some, Bool.false_eq_true, if_false] at h
                              rw [lk_some h14, except_ok_bind]
                              cases h15 : dictGet m.values "connected_sewer" with
                              | none =>
                                rw [h15] at h
                                simp only [Option.isNone_none, if_true, Option.some_inj] at h
                                subst h
                                rw [lk_none h15]
                                rfl
                              | some v15 =>
                                rw [h15] at h
                                simp only [Option.isNone_some, Bool.false_eq_true, if_false] at h
                                rw [lk_some h15, except_ok_bind]
                                exact absurd h (by simp)

theorem firstMissing_none_of_resolveFilterKeys_ok (m : SchemaMap)
    (ks : FilterKeys) (h : resolveFilterKeys m = .ok ks) :
    firstMissingFilterEntry m = none := by
  unfold resolveFilterKeys at h
  cases h1 : dictGet m.keys "property_type" with
  | none =>
    rw [lk_none h1, except_error_bind] at h
    exact Except.noConfusion h
  | some v1 =>
    rw [lk_some h1, except_ok_bind] at h
    cases h2 : dictGet m.keys "city" with
    | none =>
      rw [lk_none h2, except_error_bind] at h
      exact Except.noConfusion h
    | some v2 =>
      rw [lk_some h2, except_ok_bind] at h
      cases h3 : dictGet m.keys "municipality" with
      | none =>
        rw [lk_none h3, except_error_bind] at h
        exact Except.noConfusion h
      | some v3 =>
        rw [lk_some h3, except_ok_bind] at h
        cases h4 : dictGet m.keys "zip_code" with
        | none =>
          rw [lk_none h4, except_error_bind] at h
          exact Except.noConfusion h
        | some v4 =>
          rw [lk_some h4, except_ok_bind] at h
          cases h5 : dictGet m.keys "year_built" with
          | none =>
            rw [lk_none h5, except_error_bind] at h
            exact Except.noConfusion h
          | some v5 =>
            rw [lk_some h5, except_ok_bind] at h
            cases h6 : dictGet m.keys "sqft" with
            | none =>
              rw [lk_none h6, except_error_bind] at h
              exact Except.noConfusion h
            | some v6 =>
              rw [lk_some h6, except_ok_bind] at h
              cases h7 : dictGet m.keys "acres" with
              | none =>
                rw [lk_none h7, except_error_bind] at h
                exact Except.noConfusion h
              | some v7 =>
                rw [lk_some h7, except_ok_bind] at h
                cases h8 : dictGet m.keys "bedrooms" with
                | none =>
                  rw [lk_none h8, except_error_bind] at h
                  exact Except.noConfusion h
                | some v8 =>
                  rw [lk_some h8, except_ok_bind] at h
                  cases h9 : dictGet m.keys "bathrooms" with
                  | none =>
                    rw [lk_none h9, except_error_bind] at h
                    exact Except.noConfusion h
                  | some v9 =>
                    rw [lk_some h9, except_ok_bind] at h
                    cases h10 : dictGet m.keys "school_district" with
                    | none =>
                      rw [lk_none h10, except_error_bind] at h
                      exact Except.noConfusion h
                    | some v10 =>
                      rw [lk_some h10, except_ok_bind] at h
                      cases h11 : dictGet m.keys "water_type" with
                      | none =>
                        rw [lk_none h11, except_error_bind] at h
                        exact Except.noConfusion h
                      | some v11 =>
                        rw [lk_some h11, except_ok_bind] at h
                        cases h12 : dictGet m.keys "sewer_type" with
                        | none =>
                          rw [lk_none h12, except_error_bind] at h
                          exact Except.noConfusion h
                        | some v12 =>
                          rw [lk_some h12, except_ok_bind] at h
                          cases h13 : dictGet m.values "single_family_home" with
                          | none =>
                            rw [lk_none h13, except_error_bind] at h
                            exact Except.noConfusion h
                          | some v13 =>
                            rw [lk_some h13, except_ok_bind] at h
                            cases h14 : dictGet m.values "connected_water" with
                            | none =>
                              rw [lk_none h14, except_error_bind] at h
                              exact Except.noConfusion h
                            | some v14 =>
                              rw [lk_some h14, except_ok_bind] at h
                              cases h15 : dictGet m.values "connected_sewer" with
                              | none =>
                                rw [lk_none h15, except_error_bind] at h
                                exact Except.noConfusion h
                              | some v15 =>
                                rw [lk_some h15, except_ok_bind] at h
                                simp [firstMissingFilterEntry, h1, h2, h3, h4, h5, h6, h7, h8, h9, h10, h11, h12, h13, h14, h15]

/-! ## Claims C9 and C5 — missing schema entries -/

/-- The twelve canonical column names `apply_filter` resolves (lines
36-47). -/
def requiredKeyNames : List String :=
  ["property_type", "city", "municipality", "zip_code", "year_built",
   "sqft", "acres", "bedrooms", "bathrooms", "school_district",
   "water_type", "sewer_type"]

/-- The three canonical categorical values `apply_filter` resolves (lines
48-50). -/
def requiredValueNames : List String :=
  ["single_family_home", "connected_water", "connected_sewer"]

theorem present_of_firstMissing_none (m : SchemaMap)
    (h : firstMissingFilterEntry m = none) :
    (∀ k ∈ requiredKeyNames, (dictGet m.keys k).isSome = true) ∧
    (∀ v ∈ requiredValueNames, (dictGet m.values v).isSome = true) := by
  unfold firstMissingFilterEntry at h
  cases h1 : dictGet m.keys "property_type" with
  | none =>
    rw [h1] at h
    simp only [Option.isNone_none, if_true] at h
    exact Option.noConfusion h
  | some v1 =>
    rw [h1] at h
    simp only [Option.isNone_some, Bool.false_eq_true, if_false] at h
    cases h2 : dictGet m.keys "city" with
    | none =>
      rw [h2] at h
      simp only [Option.isNone_none, if_true] at h
      exact Option.noConfusion h
    | some v2 =>
      rw [h2] at h
      simp only [Option.isNone_some, Bool.false_eq_true, if_false] at h
      cases h3 : dictGet m.keys "municipality" with
      | none =>
        rw [h3] at h
        simp only [Option.isNone_none, if_true] at h
        exact Option.noConfusion h
      | some v3 =>
        rw [h3] at h
        simp only [Option.isNone_some, Bool.false_eq_true, if_false] at h
        cases h4 : dictGet m.keys "zip_code" with
        | none =>
          rw [h4] at h
          simp only [Option.isNone_none, if_true] at h
          exact Option.noConfusion h
        | some v4 =>
          rw [h4] at h
          simp only [Option.isNone_some, Bool.false_eq_true, if_false] at h
          cases h5 : dictGet m.keys "year_built" with
          | none =>
            rw [h5] at h
            simp only [Option.isNone_none, if_true] at h
            exact Option.noConfusion h
          | some v5 =>
            rw [h5] at h
            simp only [Option.isNone_some, Bool.false_eq_true, if_false] at h
            cases h6 : dictGet m.keys "sqft" with
            | none =>
              rw [h6] at h
              simp only [Option.isNone_none, if_true] at h
              exact Option.noConfusion h
            | some v6 =>
              rw [h6] at h
              simp only [Option.isNone_some, Bool.false_eq_true, if_false] at h
              cases h7 : dictGet m.keys "acres" with
              | none =>
                rw [h7] at h
                simp only [Option.isNone_none, if_true] at h
                exact Option.noConfusion h
              | some v7 =>
                rw [h7] at h
                simp only [Option.isNone_some, Bool.false_eq_true, if_false] at h
                cases h8 : dictGet m.keys "bedrooms" with
                | none =>
                  rw [h8] at h
                  simp only [Option.isNone_none, if_true] at h
                  exact Option.noConfusion h
                | some v8 =>
                  rw [h8] at h
                  simp only [Option.isNone_some, Bool.false_eq_true, if_false] at h
                  cases h9 : dictGet m.keys "bathrooms" with
                  | none =>
                    rw [h9] at h
                    simp only [Option.isNone_none, if_true] at h
                    exact Option.noConfusion h
                  | some v9 =>
                    rw [h9] at h
                    simp only [Option.isNone_some, Bool.false_eq_true, if_false] at h
                    cases h10 : dictGet m.keys "school_district" with
                    | none =>
                      rw [h10] at h
                      simp only [Option.isNone_none, if_true] at h
                      exact Option.noConfusion h
                    | some v10 =>
                      rw [h10] at h
                      simp only [Option.isNone_some, Bool.false_eq_true, if_false] at h
                      cases h11 : dictGet m.keys "water_type" with
                      | none =>
                        rw [h11] at h
                        simp only [Option.isNone_none, if_true] at h
                        exact Option.noConfusion h
                      | some v11 =>
                        rw [h11] at h
                        simp only [Option.isNone_some, Bool.false_eq_true, if_false] at h
                        cases h12 : dictGet m.keys "sewer_type" with
                        | none =>
                          rw [h12] at h
                          simp only [Option.isNone_none, if_true] at h
                          exact Option.noConfusion h
                        | some v12 =>
                          rw [h12] at h
                          simp only [Option.isNone_some, Bool.false_eq_true, if_false] at h
                          cases h13 : dictGet m.values "single_family_home" with
                          | none =>
                            rw [h13] at h
                            simp only [Option.isNone_none, if_true] at h
                            exact Option.noConfusion h
                          | some v13 =>
                            rw [h13] at h
                            simp only [Option.isNone_some, Bool.false_eq_true, if_false] at h
                            cases h14 : dictGet m.values "connected_water" with
                            | none =>
                              rw [h14] at h
                              simp only [Option.isNone_none, if_true] at h
                              exact Option.noConfusion h
                            | some v14 =>
                              rw [h14] at h
                              simp only [Option.isNone_some, Bool.false_eq_true, if_false] at h
                              cases h15 : dictGet m.values "connected_sewer" with
                              | none =>
                                rw [h15] at h
                                simp only [Option.isNone_none, if_true] at h
                                exact Option.noConfusion h
                              | some v15 =>
                                rw [h15] at h
                                simp only [Option.isNone_some, Bool.false_eq_true, if_false] at h
                                constructor <;> intro x hx
                                · simp only [requiredKeyNames, List.mem_cons, List.not_mem_nil,
                                    or_false] at hx
                                  rcases hx with rfl | rfl | rfl | rfl | rfl | rfl | rfl | rfl |
                                    rfl | rfl | rfl | rfl <;> simp [h1, h2, h3, h4, h5, h6, h7,
                                    h8, h9, h10, h11, h12]
                                · simp only [requiredValueNames, List.mem_cons, List.not_mem_nil,
                                    or_false] at hx
                                  rcases hx with rfl | rfl | rfl <;> simp [h13, h14, h15]

/-- Claim C9: `apply_filter` looks up all twelve column keys and all three
categorical values before evaluating any filter stage, so a schema map
missing any of those fifteen entries makes it raise a missing-key error
for every filter — even one whose stages are all unset or disabled. -/
theorem c9_missing_entry_always_errors (filt : AttributeFilter) (gdf : GDF)
    (m : SchemaMap)
    (h : (∃ k ∈ requiredKeyNames, dictGet m.keys k = none) ∨
         (∃ v ∈ requiredValueNames, dictGet m.values v = none)) :
    ∃ k, apply_filter filt gdf m = .error (.keyError k) := by
  have hne : firstMissingFilterEntry m ≠ none := by
    intro hnone
    have hall := present_of_firstMissing_none m hnone
    rcases h with ⟨k, hk, hkn⟩ | ⟨v, hv, hvn⟩
    · have := hall.1 k hk
      simp [hkn] at this
    · have := hall.2 v hv
      simp [hvn] at this
  obtain ⟨k, hk⟩ := Option.ne_none_iff_exists'.mp hne
  refine ⟨k, ?_⟩
  unfold apply_filter
  rw [resolveFilterKeys_error_of_firstMissing m k hk]
  rfl

/-- An `AttributeFilter` with every stage disabled: the caller declared
the data pre-restricted to single-family homes, no water/sewer
requirement, and every bound and string unset. -/
def allStagesDisabledFilter : AttributeFilter :=
  mkAttributeFilter true false false
    none none none none none none none none
    none none none none none

/-- A record set with the standard dataset-specific columns of `mFull`
and one fully populated row. -/
def gdfStd : GDF where
  cols := ["PT", "CITY", "MUNI", "ZIP", "YB", "SQ", "AC", "BD", "BA",
           "SD", "WT", "SW", "geometry"]
  rows := [[("PT", .str "210"), ("CITY", .str "Rochester"),
            ("MUNI", .str "Rochester"), ("ZIP", .str "14620"),
            ("YB", .num 1975), ("SQ", .num 1500), ("AC", .num 1),
            ("BD", .num 3), ("BA", .num 2), ("SD", .str "CityDistrict"),
            ("WT", .str "comm"), ("SW", .str "comm"),
            ("geometry", .str "POINT (0 0)")]]

theorem c9_witness :
    (∃ k ∈ requiredKeyNames,
      dictGet (SchemaMap.mk [] []).keys k = none) ∧
    ∃ k, apply_filter allStagesDisabledFilter gdfStd (SchemaMap.mk [] []) =
      .error (.keyError k) :=
  ⟨by decide,
   c9_missing_entry_always_errors allStagesDisabledFilter gdfStd
     (SchemaMap.mk [] []) (Or.inl (by decide))⟩

/-- Claim C5 (amended): a filter stage key absent from the resolved schema
map makes `apply_filter` fail with a `KeyError` carrying the first missing
canonical name — it never silently passes all records — but the error's
message is only that key name, with no partition name attached. -/
theorem c5_missing_key_error (filt : AttributeFilter) (gdf : GDF)
    (m : SchemaMap) (k : String)
    (h : firstMissingFilterEntry m = some k) :
    apply_filter filt gdf m = .error (.keyError k) ∧
    PyErr.message (.keyError k) = k := by
  refine ⟨?_, rfl⟩
  unfold apply_filter
  rw [resolveFilterKeys_error_of_firstMissing m k h]
  rfl

theorem c5_witness :
    firstMissingFilterEntry (SchemaMap.mk [("property_type", "PT")] []) =
      some "city" ∧
    apply_filter defaultAttributeFilter gdfStd
      (SchemaMap.mk [("property_type", "PT")] []) =
      .error (.keyError "city") :=
  ⟨by decide,
   (c5_missing_key_error defaultAttributeFilter gdfStd
     (SchemaMap.mk [("property_type", "PT")] []) "city" (by decide)).1⟩

/-- A loader environment with one county whose statewide schema map is
empty, so the first stage lookup fails during the load. -/
def envC5 : LoaderEnv where
  stateDir := "state"
  keysAndValuesFilename := "keys.json"
  listing := ["MonroeCounty"]
  isDir := fun _ => true
  bboxFile := fun _ => some ⟨-100, 100, -100, 100⟩
  parcels := fun e => if e = "MonroeCounty" then some (fun _ => gdfStd)
                      else none
  localSchema := fun _ => none
  statewideSchema := ⟨[], []⟩
  latlonToCrs := fun a b => (b, a)

/-- Claim C5 counterexample: the claim says the missing-key error names
both the offending partition and the key; in the code the error is the
bare `KeyError` of the dict lookup, whose message is only the key —
loading `MonroeCounty` with a schema map missing `property_type` fails
with an error whose message contains neither `MonroeCounty` nor `Monroe`. -/
theorem c5_counterexample :
    load_parcels envC5 (0, 0) 10 10 defaultAttributeFilter =
      .error (.keyError "property_type") ∧
    strContains (PyErr.message (PyErr.keyError "property_type"))
      "MonroeCounty" = false ∧
    strContains (PyErr.message (PyErr.keyError "property_type"))
      "Monroe" = false := by
  decide

/-! ## Claim C2 — the default filter is not the identity -/

theorem maskFilter_id {g : GDF} {k : String} {p : Option PyVal → Bool}
    (hk : k ∈ g.cols) (hp : ∀ r ∈ g.rows, p (cell r k) = true) :
    maskFilter g k p = .ok g := by
  simp [maskFilter, hk, List.filter_eq_self.mpr hp]

/-- Two records: one not a single-family home, one a single-family home
with `year_built` above the default upper bound 9999. -/
def gdfC2 : GDF where
  cols := ["PT", "YB", "SQ", "AC"]
  rows := [[("PT", .str "485"), ("YB", .num 1990), ("SQ", .num 1500),
            ("AC", .num 1)],
           [("PT", .str "210"), ("YB", .num 10000), ("SQ", .num 1500),
            ("AC", .num 1)]]

/-- Claim C2 counterexample: with every bound at its default, the filter
is not the identity — the property-type stage still runs (the
`already_sfh` flag defaults to false) and the year stage still enforces
the 0..9999 default range, so both records of `gdfC2` are dropped. -/
theorem c2_counterexample :
    apply_filter defaultAttributeFilter gdfC2 mFull =
      .ok ⟨["PT", "YB", "SQ", "AC"], []⟩ ∧
    GDF.mk ["PT", "YB", "SQ", "AC"] [] ≠ gdfC2 := by
  decide

/-- Claim C2 (amended): a default-constructed `AttributeFilter` still
filters to single-family homes and applies the default numeric caps
(year built 0..9999, square footage 0..99999, acres 0..99999); it is the
identity precisely on record sets every record of which is a
single-family home with those attributes in range (the bed/bath
thresholds, water/sewer flags and optional strings are genuinely
no-ops when unset). -/
theorem c2_default_filter_identity (g : GDF) (m : SchemaMap)
    (ks : FilterKeys) (hres : resolveFilterKeys m = .ok ks)
    (hpt : ks.property_type_key ∈ g.cols)
    (hyb : ks.year_built_key ∈ g.cols)
    (hsq : ks.sqft_key ∈ g.cols)
    (hac : ks.acres_key ∈ g.cols)
    (hrows : ∀ r ∈ g.rows,
      cellEqStr (cell r ks.property_type_key)
        ks.single_family_home_value = true ∧
      (cellGEnum (cell r ks.year_built_key) 0 &&
        cellLEnum (cell r ks.year_built_key) 9999) = true ∧
      (cellGEnum (cell r ks.sqft_key) 0 &&
        cellLEnum (cell r ks.sqft_key) 99999) = true ∧
      (cellGEnum (cell r ks.acres_key) 0 &&
        cellLEnum (cell r ks.acres_key) 99999) = true) :
    apply_filter defaultAttributeFilter g m = .ok g := by
  have h1 : maskFilter g ks.property_type_key
      (fun v => cellEqStr v ks.single_family_home_value) = .ok g :=
    maskFilter_id hpt (fun r hr => (hrows r hr).1)
  have h2 : maskFilter g ks.year_built_key
      (fun v => cellGEnum v 0 && cellLEnum v 9999) = .ok g :=
    maskFilter_id hyb (fun r hr => (hrows r hr).2.1)
  have h3 : maskFilter g ks.sqft_key
      (fun v => cellGEnum v 0 && cellLEnum v 99999) = .ok g :=
    maskFilter_id hsq (fun r hr => (hrows r hr).2.2.1)
  have h4 : maskFilter g ks.acres_key
      (fun v => cellGEnum v 0 && cellLEnum v 99999) = .ok g :=
    maskFilter_id hac (fun r hr => (hrows r hr).2.2.2)
  unfold apply_filter
  rw [hres, except_ok_bind]
  simp only [defaultAttributeFilter, mkAttributeFilter, numDefault]
  norm_num
  rw [h1, except_ok_bind, h2, except_ok_bind, h3, except_ok_bind, h4,
    except_ok_bind]
  rfl

/-- The `FilterKeys` resolved from `mFull`. -/
def ksFull : FilterKeys :=
  ⟨"PT", "CITY", "MUNI", "ZIP", "YB", "SQ", "AC", "BD", "BA", "SD",
   "WT", "SW", "210", "comm", "comm"⟩

def gdfC2w : GDF where
  cols := ["PT", "YB", "SQ", "AC"]
  rows := [[("PT", .str "210"), ("YB", .num 1990), ("SQ", .num 1500),
            ("AC", .num 1)]]

theorem c2_witness :
    apply_filter defaultAttributeFilter gdfC2w mFull = .ok gdfC2w :=
  c2_default_filter_identity gdfC2w mFull ksFull (by decide) (by decide)
    (by decide) (by decide) (by decide) (by decide)


/-! ## Claim C1 — shape of the combined result -/

/-- A county whose stored bbox is disjoint from the query's box, so the
query prunes it out and nothing contributes. -/
def envC1 : LoaderEnv where
  stateDir := "state"
  keysAndValuesFilename := "keys.json"
  listing := ["MadisonCounty"]
  isDir := fun _ => true
  bboxFile := fun _ => some ⟨1000, 2000, 1000, 2000⟩
  parcels := fun _ => some (fun _ => gdfStd)
  localSchema := fun _ => none
  statewideSchema := mFull
  latlonToCrs := fun a b => (b, a)

/-- Claim C1 counterexample: when no partition survives pruning,
`load_parcels` returns the dataframe it started from —
`geopandas.GeoDataFrame()`, which has no columns at all — so the empty
result is not canonically schemad (canonical attribute set plus
geometry), contradicting the claim. -/
theorem c1_counterexample :
    load_parcels envC1 (0, 0) 10 10 defaultAttributeFilter =
      .ok emptyGDF ∧
    emptyGDF.cols ≠ canonicalColumns ++ ["geometry"] := by
  decide

/-- Claim C1 (amended): when every directory entry is passed over by the
loop (not a county directory, skipped by the county restriction, or
pruned by the bbox intersection test), `load_parcels` returns a valid
empty record set — never null or a failure — but that record set has an
empty column list, not the canonical schema. -/
theorem c1_empty_load (env : LoaderEnv) (center : PyNum × PyNum)
    (w h : PyNum) (filt : AttributeFilter)
    (hp : ∀ e ∈ env.listing,
      prunedOut env filt (queryRect env center w h) e) :
    load_parcels env center w h filt = .ok emptyGDF ∧
    emptyGDF.cols = [] := by
  refine ⟨?_, rfl⟩
  unfold load_parcels
  rw [loadLoop_prunedOut hp emptyGDF]
  rfl

theorem c1_witness :
    load_parcels envC1 (3, 4) 10 10 defaultAttributeFilter =
      .ok emptyGDF ∧ emptyGDF.cols = [] :=
  c1_empty_load envC1 (3, 4) 10 10 defaultAttributeFilter (by
    intro e he
    simp only [envC1, List.mem_singleton] at he
    subst he
    exact Or.inr (Or.inr ⟨⟨1000, 2000, 1000, 2000⟩, rfl, by decide⟩))

/-! ## Claim C4 — missing partition files are fatal -/

theorem processEntry_bbox_missing {env : LoaderEnv}
    {filt : AttributeFilter} {qbox : Rect} {acc : GDF} {entry : String}
    (hend : strEndsWith entry "County" = true)
    (hdir : env.isDir entry = true)
    (hskip : skipByCounty filt.county entry = false)
    (hb : env.bboxFile entry = none) :
    processEntry env filt qbox acc entry =
      .error (.valueError (bboxPath env entry ++ " does not exist.")) := by
  unfold processEntry
  simp [hend, hdir, hskip, hb]

theorem processEntry_parcels_missing {env : LoaderEnv}
    {filt : AttributeFilter} {qbox : Rect} {acc : GDF} {entry : String}
    {cb : Rect} (hend : strEndsWith entry "County" = true)
    (hdir : env.isDir entry = true)
    (hskip : skipByCounty filt.county entry = false)
    (hb : env.bboxFile entry = some cb)
    (hi : rectIntersects cb qbox = true)
    (hp : env.parcels entry = none) :
    processEntry env filt qbox acc entry =
      .error (.valueError (parcelsPath env entry ++ " does not exist.")) := by
  unfold processEntry
  simp [hend, hdir, hskip, hb, hi, hp]

theorem foldlM_except_append_ok {α β ε : Type} {f : β → α → Except ε β}
    {l₁ : List α} {b : β} {g : β} (l₂ : List α)
    (h : l₁.foldlM f b = .ok g) :
    (l₁ ++ l₂).foldlM f b = l₂.foldlM f g := by
  rw [foldlM_except_append, h]

/-- Claim C4: a candidate partition (a county directory not skipped by the
county restriction) whose bbox file is missing makes the whole
`load_parcels` call fail with an error naming the missing file, and one
that survives the bbox intersection test but lacks its records file does
the same; the partition is never silently dropped and no partial result
is returned.  (`pre`/`post` split the directory listing around the
offending entry, the loop having processed `pre` without error.) -/
theorem c4_missing_file_fatal (env : LoaderEnv) (center : PyNum × PyNum)
    (w h : PyNum) (filt : AttributeFilter) (pre post : List String)
    (entry : String) (g : GDF)
    (hlist : env.listing = pre ++ entry :: post)
    (hpre : pre.foldlM (fun acc e => processEntry env filt
      (queryRect env center w h) acc e) emptyGDF = .ok g)
    (hend : strEndsWith entry "County" = true)
    (hdir : env.isDir entry = true)
    (hskip : skipByCounty filt.county entry = false) :
    (env.bboxFile entry = none →
      load_parcels env center w h filt =
        .error (.valueError (bboxPath env entry ++ " does not exist."))) ∧
    (∀ cb, env.bboxFile entry = some cb →
      rectIntersects cb (queryRect env center w h) = true →
      env.parcels entry = none →
      load_parcels env center w h filt =
        .error (.valueError (parcelsPath env entry ++ " does not exist."))) := by
  constructor
  · intro hb
    unfold load_parcels
    rw [hlist, foldlM_except_append_ok _ hpre,
      foldlM_except_error_head _ _ _ _ _
        (processEntry_bbox_missing hend hdir hskip hb)]
    rfl
  · intro cb hcb hint hp
    unfold load_parcels
    rw [hlist, foldlM_except_append_ok _ hpre,
      foldlM_except_error_head _ _ _ _ _
        (processEntry_parcels_missing hend hdir hskip hcb hint hp)]
    rfl

/-- A county directory with no bbox file at all. -/
def envC4 : LoaderEnv where
  stateDir := "state"
  keysAndValuesFilename := "keys.json"
  listing := ["AdaCounty"]
  isDir := fun _ => true
  bboxFile := fun _ => none
  parcels := fun _ => none
  localSchema := fun _ => none
  statewideSchema := mFull
  latlonToCrs := fun a b => (b, a)

theorem c4_witness :
    load_parcels envC4 (0, 0) 10 10 defaultAttributeFilter =
      .error (.valueError "state/AdaCounty/AdaCountyBbox.geojson does not exist.") := by
  have h := (c4_missing_file_fatal envC4 (0, 0) 10 10
    defaultAttributeFilter [] [] "AdaCounty" emptyGDF rfl rfl (by decide)
    rfl rfl).1 rfl
  simpa using h

/-! ## Claim C3 — the county-name restriction and the bbox test -/

/-- A filter restricted to Monroe county with everything else unset. -/
def filtC3 : AttributeFilter :=
  mkAttributeFilter true false false
    none none none none none none none none
    (some "Monroe") none none none none

/-- The single matching county, but with a bbox disjoint from the query
region around (0, 0), and a non-empty records file. -/
def envC3 : LoaderEnv where
  stateDir := "state"
  keysAndValuesFilename := "keys.json"
  listing := ["MonroeCounty"]
  isDir := fun _ => true
  bboxFile := fun _ => some ⟨1000, 2000, 1000, 2000⟩
  parcels := fun e => if e = "MonroeCounty" then some (fun _ => gdfStd)
                      else none
  localSchema := fun _ => none
  statewideSchema := mFull
  latlonToCrs := fun a b => (b, a)

/-- Claim C3 counterexample: the claim's prune (modelled verbatim as
`claimedPrune`) says the single partition matching the requested county
survives with the bbox test skipped, yet the code still applies the bbox
intersection test to it: its records file exists and is non-empty, but
the load returns the empty result because the stored bbox is disjoint
from the query box. -/
theorem c3_counterexample :
    claimedPrune envC3 (queryRect envC3 (0, 0) 10 10) (some "Monroe") =
      ["MonroeCounty"] ∧
    (envC3.parcels "MonroeCounty").isSome = true ∧
    load_parcels envC3 (0, 0) 10 10 filtC3 = .ok emptyGDF := by
  decide

/-- Claim C3 (amended): with a county name set, the loop skips exactly
the county directories whose normalized name differs (several may match;
there is no exactly-one requirement and no empty-set fallback), and a
matching partition still undergoes the bbox existence check and the bbox
intersection test — the test is never skipped. -/
theorem c3_county_restriction_behavior (env : LoaderEnv)
    (filt : AttributeFilter) (qbox : Rect) (acc : GDF) (entry : String)
    (c : String) (hc : filt.county = some c) (hne : c ≠ "")
    (hend : strEndsWith entry "County" = true)
    (hdir : env.isDir entry = true) :
    (standardize_county c ≠ standardize_county (dropCountySuffix entry) →
      processEntry env filt qbox acc entry = .ok acc) ∧
    (∀ cb, standardize_county c = standardize_county (dropCountySuffix entry) →
      env.bboxFile entry = some cb → rectIntersects cb qbox = false →
      processEntry env filt qbox acc entry = .ok acc) ∧
    (standardize_county c = standardize_county (dropCountySuffix entry) →
      env.bboxFile entry = none →
      processEntry env filt qbox acc entry =
        .error (.valueError (bboxPath env entry ++ " does not exist."))) := by
  refine ⟨fun hmis => ?_, fun cb hmat hcb hint => ?_, fun hmat hb => ?_⟩
  · have hs : skipByCounty filt.county entry = true := by
      simp [skipByCounty, hc, hne, hmis]
    exact processEntry_prunedOut (Or.inr (Or.inl hs)) acc
  · exact processEntry_prunedOut (Or.inr (Or.inr ⟨cb, hcb, hint⟩)) acc
  · have hs : skipByCounty filt.county entry = false := by
      simp [skipByCounty, hc, hne, hmat]
    exact processEntry_bbox_missing hend hdir hs hb

theorem c3_witness :
    processEntry envC3 filtC3 (queryRect envC3 (0, 0) 10 10) emptyGDF
      "MonroeCounty" = .ok emptyGDF :=
  (c3_county_restriction_behavior envC3 filtC3
    (queryRect envC3 (0, 0) 10 10) emptyGDF "MonroeCounty" "Monroe" rfl
    (by decide) (by decide) rfl).2.1 ⟨1000, 2000, 1000, 2000⟩ (by decide)
    rfl (by decide)

/-! ## Claim C10 — non-matching partitions are never touched -/

/-- Claim C10: when the filter's county restriction is set (to a
non-empty name), the result of `load_parcels` depends only on the shared
listing, directory predicate, statewide schema, paths and projection, and
on the files of the partitions whose normalized name matches — the bbox,
records and schema files of every non-matching partition are irrelevant,
so in particular a missing bbox file there can never fail the load. -/
theorem c10_county_restriction_shields (env env' : LoaderEnv)
    (center : PyNum × PyNum) (w h : PyNum) (filt : AttributeFilter)
    (c : String) (hc : filt.county = some c) (hne : c ≠ "")
    (hsd : env'.stateDir = env.stateDir)
    (hls : env'.listing = env.listing)
    (hdir : env'.isDir = env.isDir)
    (hcrs : env'.latlonToCrs = env.latlonToCrs)
    (hsw : env'.statewideSchema = env.statewideSchema)
    (hmatch : ∀ e,
      standardize_county c = standardize_county (dropCountySuffix e) →
      env'.bboxFile e = env.bboxFile e ∧ env'.parcels e = env.parcels e ∧
      env'.localSchema e = env.localSchema e) :
    load_parcels env' center w h filt = load_parcels env center w h filt := by
  have hq : queryRect env' center w h = queryRect env center w h := by
    unfold queryRect
    rw [hcrs]
  have hpe : ∀ (acc : GDF) (e : String),
      processEntry env' filt (queryRect env' center w h) acc e =
      processEntry env filt (queryRect env center w h) acc e := by
    intro acc e
    unfold processEntry
    rw [hq, hdir]
    by_cases hcd : (strEndsWith e "County" && env.isDir e) = true
    · simp only [hcd, if_true]
      by_cases hs : skipByCounty filt.county e = true
      · simp [hs]
      · rw [Bool.not_eq_true] at hs
        have hmat : standardize_county c =
            standardize_county (dropCountySuffix e) := by
          simp [skipByCounty, hc, hne] at hs
          exact hs
        obtain ⟨hbb, hpp, hloc⟩ := hmatch e hmat
        have hbp : bboxPath env' e = bboxPath env e := by
          unfold bboxPath
          rw [hsd]
        have hppth : parcelsPath env' e = parcelsPath env e := by
          unfold parcelsPath
          rw [hsd]
        have hrs : resolveSchema env' e = resolveSchema env e := by
          unfold resolveSchema
          rw [hloc, hsw]
        rw [hbb, hbp, hppth, hrs, hpp]
    · rw [Bool.not_eq_true] at hcd
      simp [hcd]
  have key : ∀ (l : List String) (acc : GDF),
      l.foldlM (fun a e =>
        processEntry env' filt (queryRect env' center w h) a e) acc =
      l.foldlM (fun a e =>
        processEntry env filt (queryRect env center w h) a e) acc := by
    intro l
    induction l with
    | nil => intro acc; rfl
    | cons a l ih =>
      intro acc
      rw [List.foldlM_cons, List.foldlM_cons, hpe acc a]
      cases hres : processEntry env filt (queryRect env center w h) acc a
        with
      | error e => simp [Bind.bind, Except.bind]
      | ok g => simp [Bind.bind, Except.bind, ih]
  unfold load_parcels
  rw [hls, key env.listing emptyGDF]

/-- A filter restricted to Monroe county. -/
def filtC10 : AttributeFilter :=
  mkAttributeFilter true false false
    none none none none none none none none
    (some "Monroe") none none none none

def envC10A : LoaderEnv where
  stateDir := "state"
  keysAndValuesFilename := "keys.json"
  listing := ["MonroeCounty", "OntarioCounty"]
  isDir := fun _ => true
  bboxFile := fun e => if e = "MonroeCounty" then some ⟨-50, 50, -50, 50⟩
    else if e = "OntarioCounty" then some ⟨60, 90, 60, 90⟩ else none
  parcels := fun e => if e = "MonroeCounty" then some (fun _ => gdfStd)
    else if e = "OntarioCounty" then some (fun _ => gdfStd) else none
  localSchema := fun _ => none
  statewideSchema := mFull
  latlonToCrs := fun a b => (b, a)

/-- The same state, but Ontario county's bbox and records files are
gone. -/
def envC10B : LoaderEnv where
  stateDir := "state"
  keysAndValuesFilename := "keys.json"
  listing := ["MonroeCounty", "OntarioCounty"]
  isDir := fun _ => true
  bboxFile := fun e => if e = "MonroeCounty" then some ⟨-50, 50, -50, 50⟩
    else none
  parcels := fun e => if e = "MonroeCounty" then some (fun _ => gdfStd)
    else none
  localSchema := fun _ => none
  statewideSchema := mFull
  latlonToCrs := fun a b => (b, a)

theorem c10_witness :
    load_parcels envC10B (0, 0) 10 10 filtC10 =
      load_parcels envC10A (0, 0) 10 10 filtC10 :=
  c10_county_restriction_shields envC10A envC10B (0, 0) 10 10 filtC10
    "Monroe" rfl (by decide) rfl rfl rfl rfl rfl (by
      intro e hmat
      by_cases h1 : e = "MonroeCounty"
      · subst h1
        exact ⟨rfl, rfl, rfl⟩
      · by_cases h2 : e = "OntarioCounty"
        · subst h2
          exact absurd hmat (by decide)
        · simp [envC10A, envC10B, h1, h2])

/-! ## Claim C6 — query-region validation in `main` -/

/-- Arguments with a conflicting region: both a radius and a width. -/
def argsC6 : MainArgs where
  input_filepath := some "parcels.geojson"
  county_parent_dir := none
  parcel_keys_and_values_filepath := "keys.json"
  parcel_keys_types_filepath := "types.json"
  plot_key := none
  plot_all_filepath := none
  plot_filtered_filepath := none
  folium_filepath := none
  center_latlon := some (0, 0)
  radius_meters := some 100
  width_meters := some 50
  height_meters := none
  colormap := none
  markersize := none
  figsize := none

/-- External state whose schema-map file is missing. -/
def envC6bad : MainEnv where
  keysFileContent := none
  typesFileContent := some []
  colormapList := []
  inputFile := fun _ => none
  loaderEnv := envC1

/-- Claim C6 counterexample: the claim says the query region is validated
before any work, but `main` reads the two schema JSON files first (lines
73-79) and only then verifies the arguments (lines 91-100) — with a
conflicting region (radius and width both set) and a missing schema-map
file, the call fails with the file error, not the region error. -/
theorem c6_counterexample :
    mainLoad argsC6 envC6bad = .error (.fileNotFound "keys.json") ∧
    argsC6.radius_meters.isSome = true ∧
    argsC6.width_meters.isSome = true := by
  decide

/-- Claim C6 (amended): after the two schema JSON files are read (which
happens first), `main` validates the query region before touching any
parcel data: a circular and a rectangular extent together always fail
with the conflicting-region error, and an extent without a center always
fails with one of the two region errors — in both cases independently of
every other part of the environment (the colormap list, the input file
and the whole loader file system are arbitrary), which shows no data work
precedes the validation. -/
theorem c6_region_validation (args : MainArgs) (env : MainEnv)
    (k : SchemaMap) (t : List (String × String))
    (hk : env.keysFileContent = some k)
    (ht : env.typesFileContent = some t)
    (h91 : ¬(args.plot_key.isSome = true ∧
      (args.plot_all_filepath.isNone = true ∧
       args.plot_filtered_filepath.isNone = true ∧
       args.folium_filepath.isNone = true))) :
    (args.radius_meters.isSome = true ∧
      (args.width_meters.isSome = true ∨ args.height_meters.isSome = true) →
      mainLoad args env = .error (.valueError
        "Cannot specify both a circular and a rectangular region.")) ∧
    (args.center_latlon.isNone = true ∧
      (args.radius_meters.isSome = true ∨ args.width_meters.isSome = true ∨
       args.height_meters.isSome = true) →
      mainLoad args env = .error (.valueError
        "Cannot specify both a circular and a rectangular region.") ∨
      mainLoad args env = .error (.valueError
        "Must specify a center lat/lon to restrict to a circle or rectangle.")) := by
  constructor
  · intro ⟨hr, hwh⟩
    have hrn : args.radius_meters.isNone = false := by
      cases h : args.radius_meters <;> simp_all
    have h93 : ¬(args.center_latlon.isSome = true ∧
        (args.radius_meters.isNone = true ∧
         args.width_meters.isNone = true)) := by
      intro ⟨_, h2, _⟩
      rw [hrn] at h2
      exact Bool.noConfusion h2
    simp only [mainLoad, hk, ht]
    rw [if_neg h91, if_neg h93, if_pos ⟨hr, hwh⟩]
  · intro ⟨hcn, hext⟩
    have hcs : args.center_latlon.isSome = false := by
      cases h : args.center_latlon <;> simp_all
    have h93 : ¬(args.center_latlon.isSome = true ∧
        (args.radius_meters.isNone = true ∧
         args.width_meters.isNone = true)) := by
      intro ⟨h1, _⟩
      rw [hcs] at h1
      exact Bool.noConfusion h1
    by_cases h95 : args.radius_meters.isSome = true ∧
        (args.width_meters.isSome = true ∨ args.height_meters.isSome = true)
    · left
      simp only [mainLoad, hk, ht]
      rw [if_neg h91, if_neg h93, if_pos h95]
    · right
      simp only [mainLoad, hk, ht]
      rw [if_neg h91, if_neg h93, if_neg h95, if_pos ⟨hcn, hext⟩]

/-- External state with both schema files present. -/
def envC6ok : MainEnv where
  keysFileContent := some mFull
  typesFileContent := some []
  colormapList := []
  inputFile := fun _ => none
  loaderEnv := envC1

theorem c6_witness :
    mainLoad argsC6 envC6ok = .error (.valueError
      "Cannot specify both a circular and a rectangular region.") :=
  (c6_region_validation argsC6 envC6ok mFull [] rfl rfl (by decide)).1
    (by decide)

end GisUtil
